import Mathlib

/-!
Verification of the price-limit analysis engine (limit_analysis.py).

Shallow embedding conventions:
* Python floats are modelled by `PyF`: an exact rational together with the two
  infinities.  NaN never flows through the pipeline (the tolerant conversion
  `_safe_float` filters it out and every default used by the code is finite or
  absent), so `PyF` has no NaN constructor; the degenerate products
  `±inf * 0` (Python NaN) that could only arise from a rule percentage of
  exactly ±1 combined with an infinite previous close are given a junk value
  and are outside the scope of the claims.
* Python `Optional[float]` is `Option PyF`.
* Raw daily rows (`Dict[str, Any]`) are modelled by `Row`: a date field plus
  one `NumLike` per numeric field consumed by the engine.  `NumLike`
  enumerates the semantically distinct classes of inputs that Python's
  `float(...)` conversion distinguishes (within float range; overflow of huge
  ints to `OverflowError` is a float-range artefact not modelled here).
* Python ints (scores, counters) are `Int`.
-/

/-- A Python float value as used by the engine: an exact rational or ±infinity. -/
inductive PyF where
  | negInf
  | fin (q : ℚ)
  | posInf
deriving DecidableEq, Repr

/-- Boolean comparison `a <= b` on Python floats (no NaN involved). -/
def PyF.ble : PyF → PyF → Bool
  | .negInf, _ => true
  | _, .posInf => true
  | .fin p, .fin q => decide (p ≤ q)
  | _, _ => false

/-- Subtraction of a finite constant, `x - c`; infinities absorb. -/
def PyF.subC : PyF → ℚ → PyF
  | .fin q, c => .fin (q - c)
  | x, _ => x

/-- Addition of a finite constant, `x + c`; infinities absorb. -/
def PyF.addC : PyF → ℚ → PyF
  | .fin q, c => .fin (q + c)
  | x, _ => x

/-- Multiplication by a finite constant, `x * c`.  The case `±inf * 0` is
Python NaN; it is mapped to a junk value (`fin 0`), see the header comment. -/
def PyF.mulC : PyF → ℚ → PyF
  | .fin q, c => .fin (q * c)
  | .posInf, c => if 0 < c then .posInf else if c < 0 then .negInf else .fin 0
  | .negInf, c => if 0 < c then .negInf else if c < 0 then .posInf else .fin 0

/-- The semantically distinct classes of values that can sit in a numeric
field of a raw daily row, as distinguished by Python's `float(...)`:
`pyNone` is `None`; `finite` is an int/float/bool whose value is the given
rational; `nanV` / `infV` are NaN / signed-infinity floats passed directly;
`blankStr` is a string that strips to the empty string; `numStr` / `nanStr` /
`infStr` are strings parsing to a finite float / NaN / a signed infinity;
`badStr` is a string `float` rejects with `ValueError`; `badType` is a value
`float` rejects with `TypeError`. -/
inductive NumLike where
  | pyNone
  | finite (q : ℚ)
  | nanV
  | infV (pos : Bool)
  | blankStr
  | numStr (q : ℚ)
  | nanStr
  | infStr (pos : Bool)
  | badStr
  | badType
deriving DecidableEq, Repr

/-- Model of `_safe_float(value, default)`: `None` and blank strings give the
default, `TypeError` / `ValueError` are caught and give the default, a NaN
result gives the default (the `math.isnan` check), everything else is the
converted float — including infinities, which pass the `isnan` check. -/
def safeFloat (value : NumLike) (default : Option PyF) : Option PyF :=
  match value with
  | .pyNone => default
  | .finite q => some (.fin q)
  | .nanV => default
  | .infV b => some (if b then .posInf else .negInf)
  | .blankStr => default
  | .numStr q => some (.fin q)
  | .nanStr => default
  | .infStr b => some (if b then .posInf else .negInf)
  | .badStr => default
  | .badType => default

/-- `_safe_float` with a non-`None` default always yields a float; this wrapper
mirrors the call sites `_safe_float(x, 0.0)` and `_safe_float(x, close)`. -/
def safeFloatD (value : NumLike) (default : PyF) : PyF :=
  (safeFloat value (some default)).getD default

/-- Modelled from the spec: the finite number a raw field value represents,
if any (used to state the corrected version of the tolerant-conversion
claim, for comparison with `safeFloat`). -/
def finiteValue : NumLike → Option ℚ
  | .finite q => some q
  | .numStr q => some q
  | _ => none

/-- Modelled from the spec: the signed infinity a raw field value represents,
if any (companion of `finiteValue`). -/
def infiniteValue : NumLike → Option Bool
  | .infV b => some b
  | .infStr b => some b
  | _ => none

/-- Round-half-even to an integer (Python's `round` tie-breaking rule). -/
def roundHalfEven (x : ℚ) : ℤ :=
  let f := ⌊x⌋
  if x - (f : ℚ) < 1/2 then f
  else if (1:ℚ)/2 < x - (f : ℚ) then f + 1
  else if f % 2 = 0 then f else f + 1

/-- Model of `_round_price(value)`: `round(value + 1e-8, 2)`; rounding an
infinity with `ndigits` returns it unchanged. -/
def roundPrice (value : PyF) : PyF :=
  match value with
  | .fin q => .fin ((roundHalfEven ((q + 1/100000000) * 100) : ℚ) / 100)
  | x => x

/-- Model of `_format_date` on the date field: `None` formats to the empty
string, a string to itself (non-string dates format through `isoformat` or
`str`, i.e. again to some string, which the `Option String` model absorbs). -/
def formatDate : Option String → String
  | none => ""
  | some s => s

/-- One raw daily row (the engine only reads these keys of the dict). -/
structure Row where
  date : Option String
  close : NumLike
  high : NumLike
  low : NumLike
  pct_chg : NumLike
  volume : NumLike
  amount : NumLike
  volume_ratio : NumLike
deriving DecidableEq, Repr

/-- The `LimitRule` dataclass. -/
structure LimitRule where
  code : String
  name : String
  board : String
  is_st : Bool
  limit_up_pct : ℚ
  limit_down_pct : ℚ
deriving DecidableEq, Repr

/-- The `DailyLimitRecord` dataclass. -/
structure DailyLimitRecord where
  date : String
  close : PyF
  high : PyF
  low : PyF
  prev_close : PyF
  pct_chg : Option PyF
  volume : Option PyF
  amount : Option PyF
  volume_ratio : Option PyF
  limit_up_price : PyF
  limit_down_price : PyF
  is_limit_up : Bool
  is_limit_down : Bool
  touched_limit_up : Bool
  touched_limit_down : Bool
  broken_limit_up : Bool
  broken_limit_down : Bool
  status : String
deriving DecidableEq, Repr

/-- The `LimitStreak` dataclass (counters are Python ints). -/
structure LimitStreak where
  up_days : ℤ
  down_days : ℤ
  max_up_streak : ℤ
  max_down_streak : ℤ
  limit_up_days : ℤ
  limit_down_days : ℤ
  break_up_count : ℤ
  break_down_count : ℤ
  last_limit_up_date : Option String
  last_limit_down_date : Option String
  limit_up_dates : List String
  limit_down_dates : List String
deriving DecidableEq, Repr

/-- The `OpenBoardSignal` dataclass. -/
structure OpenBoardSignal where
  score : ℤ
  level : String
  direction : String
  reasons : List String
  volume_ratio : Option PyF := none
  turnover_rate : Option PyF := none
  volume_turning_point : Bool := false
deriving DecidableEq, Repr

/-- The `LimitAnalysisResult` dataclass. -/
structure LimitAnalysisResult where
  rule : LimitRule
  latest : Option DailyLimitRecord
  streak : LimitStreak
  open_board_signal : OpenBoardSignal
  recent_records : List DailyLimitRecord
deriving DecidableEq, Repr

/-- Substring containment on character lists (Python's `"ST" in upper_name`). -/
def containsSub (pat : List Char) : List Char → Bool
  | [] => pat.isEmpty
  | c :: rest => pat.isPrefixOf (c :: rest) || containsSub pat rest

/-- ASCII upper-casing of a string (Python's `str.upper` on the names the
engine sees; modelled per character). -/
def upperStr (s : String) : String :=
  ⟨s.data.map Char.toUpper⟩

/-- Prefix test on strings via their character lists (Python `str.startswith`). -/
def startsWithL (s pre : String) : Bool :=
  pre.data.isPrefixOf s.data

/-- Model of `_detect_limit_rule(code, name)`. -/
def detectLimitRule (code name : String) : LimitRule :=
  let upper_name := upperStr name
  let is_st := containsSub "ST".data upper_name.data
  let bp : String × ℚ :=
    if startsWithL code "688" || startsWithL code "689" then ("科创板", 1/5)
    else if startsWithL code "300" || startsWithL code "301" then ("创业板", 1/5)
    else ("主板", 1/10)
  let limit_pct := if is_st then (1/20 : ℚ) else bp.2
  { code := code, name := name, board := bp.1, is_st := is_st,
    limit_up_pct := limit_pct, limit_down_pct := limit_pct }

/-- Model of `_build_daily_record(row, prev_close, rule, price_tolerance,
pct_tolerance)`. -/
def buildDailyRecord (row : Row) (prev_close : PyF) (rule : LimitRule)
    (price_tolerance pct_tolerance : ℚ) : DailyLimitRecord :=
  let close := safeFloatD row.close (.fin 0)
  let high := safeFloatD row.high close
  let low := safeFloatD row.low close
  let pct_chg := safeFloat row.pct_chg none
  let volume := safeFloat row.volume none
  let amount := safeFloat row.amount none
  let volume_ratio := safeFloat row.volume_ratio none
  let limit_up_price := roundPrice (prev_close.mulC (1 + rule.limit_up_pct))
  let limit_down_price := roundPrice (prev_close.mulC (1 - rule.limit_down_pct))
  let is_limit_up :=
    PyF.ble (limit_up_price.subC price_tolerance) close
    || (match pct_chg with
        | some p => PyF.ble (.fin (rule.limit_up_pct * 100 - pct_tolerance)) p
        | none => false)
  let is_limit_down :=
    PyF.ble close (limit_down_price.addC price_tolerance)
    || (match pct_chg with
        | some p => PyF.ble p (.fin (-rule.limit_down_pct * 100 + pct_tolerance))
        | none => false)
  let touched_limit_up := PyF.ble (limit_up_price.subC price_tolerance) high
  let touched_limit_down := PyF.ble low (limit_down_price.addC price_tolerance)
  let broken_limit_up := touched_limit_up && !is_limit_up
  let broken_limit_down := touched_limit_down && !is_limit_down
  let status :=
    if is_limit_up then "涨停封板"
    else if is_limit_down then "跌停封板"
    else if broken_limit_up then "炸板"
    else if broken_limit_down then "跌停开板"
    else if touched_limit_up then "触及涨停"
    else if touched_limit_down then "触及跌停"
    else "非涨跌停"
  { date := formatDate row.date, close := close, high := high, low := low,
    prev_close := prev_close, pct_chg := pct_chg, volume := volume,
    amount := amount, volume_ratio := volume_ratio,
    limit_up_price := limit_up_price, limit_down_price := limit_down_price,
    is_limit_up := is_limit_up, is_limit_down := is_limit_down,
    touched_limit_up := touched_limit_up, touched_limit_down := touched_limit_down,
    broken_limit_up := broken_limit_up, broken_limit_down := broken_limit_down,
    status := status }

/-- One step of the forward loop of `_compute_streak`: state is
`(max_up_streak, max_down_streak, current_up, current_down)`. -/
def streakStep (s : ℤ × ℤ × ℤ × ℤ) (r : DailyLimitRecord) : ℤ × ℤ × ℤ × ℤ :=
  let mu := if r.is_limit_up then max s.1 (s.2.2.1 + 1) else s.1
  let cu := if r.is_limit_up then s.2.2.1 + 1 else 0
  let md := if r.is_limit_down then max s.2.1 (s.2.2.2 + 1) else s.2.1
  let cd := if r.is_limit_down then s.2.2.2 + 1 else 0
  (mu, md, cu, cd)

/-- The backward scan of `_compute_streak`: walk `reversed(records)` counting
while the predicate holds, stopping at the first failure. -/
def backCount (p : DailyLimitRecord → Bool) (records : List DailyLimitRecord) : ℤ :=
  ((records.reverse.takeWhile p).length : ℤ)

/-- Model of `_compute_streak(records)`. -/
def computeStreak (records : List DailyLimitRecord) : LimitStreak :=
  match records with
  | [] =>
    { up_days := 0, down_days := 0, max_up_streak := 0, max_down_streak := 0,
      limit_up_days := 0, limit_down_days := 0, break_up_count := 0,
      break_down_count := 0, last_limit_up_date := none,
      last_limit_down_date := none, limit_up_dates := [], limit_down_dates := [] }
  | _ :: _ =>
    let limit_up_dates := (records.filter (·.is_limit_up)).map (·.date)
    let limit_down_dates := (records.filter (·.is_limit_down)).map (·.date)
    let fwd := records.foldl streakStep (0, 0, 0, 0)
    { up_days := backCount (·.is_limit_up) records,
      down_days := backCount (·.is_limit_down) records,
      max_up_streak := fwd.1,
      max_down_streak := fwd.2.1,
      limit_up_days := (limit_up_dates.length : ℤ),
      limit_down_days := (limit_down_dates.length : ℤ),
      break_up_count := (records.countP (·.broken_limit_up) : ℤ),
      break_down_count := (records.countP (·.broken_limit_down) : ℤ),
      last_limit_up_date := limit_up_dates.getLast?,
      last_limit_down_date := limit_down_dates.getLast?,
      limit_up_dates := limit_up_dates,
      limit_down_dates := limit_down_dates }

/-- The clamp `score = max(0, min(100, score))` of the risk estimator. -/
def clampScore (n : ℤ) : ℤ := max 0 (min 100 n)

/-- The level thresholds of the risk estimator. -/
def riskLevel (n : ℤ) : String :=
  if 75 ≤ n then "高" else if 60 ≤ n then "中" else "低"

/-- Model of `_estimate_open_board_signal(latest, previous, turnover_rate)`.
The score and the reason list are threaded through the same sequence of
conditionals as in the source; each in-place `score += n` / `score -= n`
update is written as adding `n` (or `0` when its guard fails) to the previous
value. -/
def estimateOpenBoardSignal (latest previous : Option DailyLimitRecord)
    (turnover_rate : Option PyF) : OpenBoardSignal :=
  match latest with
  | none => { score := 0, level := "低", direction := "none", reasons := ["数据不足"] }
  | some l =>
    let direction :=
      if l.is_limit_up || l.touched_limit_up then "limit_up"
      else if l.is_limit_down || l.touched_limit_down then "limit_down"
      else "none"
    let volume_turning_point :=
      match previous, l.volume_ratio with
      | some p, some lv =>
        match p.volume_ratio with
        | some pv => PyF.ble pv (.fin (4/5)) && PyF.ble (.fin (3/2)) lv
        | none => false
      | _, _ => false
    let score1 : ℤ := if volume_turning_point then 50 + 10 else 50
    let reasons1 : List String :=
      if volume_turning_point then ["量比出现缩量→放量转折"] else []
    let score2 : ℤ :=
      if l.broken_limit_up then max score1 80
      else if l.touched_limit_up && !l.is_limit_up then max score1 70
      else score1
    let reasons2 : List String := reasons1 ++
      (if l.broken_limit_up then ["盘中触板但未封住（炸板）"]
       else if l.touched_limit_up && !l.is_limit_up then ["触及涨停后回落，开板已发生"]
       else [])
    let score3 : ℤ := score2 +
      (if l.is_limit_up then
        match l.volume_ratio with
        | some vr =>
          if PyF.ble (.fin 2) vr then 15
          else if PyF.ble vr (.fin (4/5)) then -10
          else 0
        | none => 0
       else 0)
    let score4 : ℤ := score3 +
      (if l.is_limit_up then
        match turnover_rate with
        | some tr => if PyF.ble (.fin 15) tr then 15 else 0
        | none => 0
       else 0)
    let reasons3 : List String := reasons2 ++
      (if l.is_limit_up then
        (match l.volume_ratio with
         | some vr =>
           if PyF.ble (.fin 2) vr then ["封板放量，封单稳定性下降"]
           else if PyF.ble vr (.fin (4/5)) then ["封板缩量，封单相对稳定"]
           else []
         | none => []) ++
        (match turnover_rate with
         | some tr => if PyF.ble (.fin 15) tr then ["换手率偏高，开板概率上升"] else []
         | none => [])
       else [])
    let score5 : ℤ := score4 +
      (if l.is_limit_down then
        match l.volume_ratio with
        | some vr => if PyF.ble (.fin 2) vr then 10 else 0
        | none => 0
       else 0)
    let score6 : ℤ := score5 +
      (if l.is_limit_down then
        match turnover_rate with
        | some tr => if PyF.ble (.fin 10) tr then 10 else 0
        | none => 0
       else 0)
    let reasons4 : List String := reasons3 ++
      (if l.is_limit_down then
        (match l.volume_ratio with
         | some vr => if PyF.ble (.fin 2) vr then ["跌停放量，存在开板风险"] else []
         | none => []) ++
        (match turnover_rate with
         | some tr => if PyF.ble (.fin 10) tr then ["跌停换手偏高，封单稳定性弱"] else []
         | none => [])
       else [])
    let final := clampScore score6
    { score := final, level := riskLevel final, direction := direction,
      reasons := reasons4, volume_ratio := l.volume_ratio,
      turnover_rate := turnover_rate, volume_turning_point := volume_turning_point }

/-- Lexicographic code-point comparison of character lists: Python compares
strings exactly this way. -/
def charListLe : List Char → List Char → Bool
  | [], _ => true
  | _ :: _, [] => false
  | a :: as, b :: bs =>
    if a.toNat < b.toNat then true
    else if b.toNat < a.toNat then false
    else charListLe as bs

/-- The sort key of `_sort_daily_records`: the formatted date string. -/
def rowKey (row : Row) : List Char :=
  (formatDate row.date).data

/-- The row comparison used by the sort. -/
def rowLe (a b : Row) : Prop :=
  charListLe (rowKey a) (rowKey b) = true

instance : DecidableRel rowLe := fun a b => by
  unfold rowLe; infer_instance

/-- Model of `_sort_daily_records(records)`: Python's `sorted` is a stable
sort by the formatted date key; any stable sort computes the same list, and
`List.insertionSort` with a total preorder is stable. -/
def sortDailyRecords (records : List Row) : List Row :=
  List.insertionSort rowLe records

/-- The classification loop of `analyze_limits`: walk the sorted rows carrying
the previous close; a row whose close does not convert resets the carry, the
first convertible row only seeds it. -/
def classifyRows : List Row → Option PyF → LimitRule → ℚ → ℚ → List DailyLimitRecord
  | [], _, _, _, _ => []
  | row :: rest, prevClose, rule, ptol, pctol =>
    match safeFloat row.close none with
    | none => classifyRows rest none rule ptol pctol
    | some close =>
      match prevClose with
      | none => classifyRows rest (some close) rule ptol pctol
      | some pc =>
        buildDailyRecord row pc rule ptol pctol :: classifyRows rest (some close) rule ptol pctol

/-- Python's `l[-n:]` slice on a list: the last `n` elements for `n ≥ 1`, and
the whole list for `n = 0`. -/
def takeLast (n : ℕ) (l : List DailyLimitRecord) : List DailyLimitRecord :=
  if n = 0 then l else l.drop (l.length - n)

/-- Python's `records[-2] if len(records) >= 2 else None`. -/
def secondLast (l : List DailyLimitRecord) : Option DailyLimitRecord :=
  if 2 ≤ l.length then l.dropLast.getLast? else none

/-- Model of `analyze_limits(code, name, daily_records, turnover_rate,
price_tolerance, pct_tolerance, recent_days)`. -/
def analyzeLimits (code name : String) (daily_records : List Row)
    (turnover_rate : Option PyF) (price_tolerance pct_tolerance : ℚ)
    (recent_days : ℕ) : LimitAnalysisResult :=
  let rule := detectLimitRule code name
  let sorted_records := sortDailyRecords daily_records
  let limit_records := classifyRows sorted_records none rule price_tolerance pct_tolerance
  let latest := limit_records.getLast?
  let streak := computeStreak limit_records
  let open_board_signal :=
    estimateOpenBoardSignal latest (secondLast limit_records) turnover_rate
  let recent_records := if limit_records.isEmpty then [] else takeLast recent_days limit_records
  { rule := rule, latest := latest, streak := streak,
    open_board_signal := open_board_signal, recent_records := recent_records }

/-- Modelled from the spec (amended behaviour of the tolerant conversion):
a value representing a finite number converts to it, a value representing an
infinity passes through as that infinity, and everything else (missing,
blank, unparseable, wrong type, NaN) yields the default. -/
def tolerantExpected (v : NumLike) (d : Option PyF) : Option PyF :=
  match finiteValue v with
  | some q => some (.fin q)
  | none =>
    match infiniteValue v with
    | some b => some (if b then .posInf else .negInf)
    | none => d

/-- A main-board 10% rule used in concrete instances. -/
def c1Rule : LimitRule :=
  { code := "000001", name := "平安银行", board := "主板", is_st := false,
    limit_up_pct := 1/10, limit_down_pct := 1/10 }

/-- A row whose close sits at the limit-down band while its reported
percentage change claims a limit-up move. -/
def c1Row : Row :=
  { date := some "2024-01-02", close := .finite 89, high := .finite 89,
    low := .finite 89, pct_chg := .finite 10, volume := .pyNone,
    amount := .pyNone, volume_ratio := .pyNone }

/-- An unremarkable row with no reported percentage change. -/
def c1RowW : Row :=
  { date := some "2024-01-03", close := .finite 105, high := .finite 106,
    low := .finite 104, pct_chg := .pyNone, volume := .pyNone,
    amount := .pyNone, volume_ratio := .pyNone }

/-- A row dated 2024-01-01 closing at 10. -/
def c2RowA : Row :=
  { date := some "2024-01-01", close := .finite 10, high := .finite 10,
    low := .finite 10, pct_chg := .pyNone, volume := .pyNone,
    amount := .pyNone, volume_ratio := .pyNone }

/-- A row with the same date as `c2RowA` but closing at 20. -/
def c2RowB : Row :=
  { date := some "2024-01-01", close := .finite 20, high := .finite 20,
    low := .finite 20, pct_chg := .pyNone, volume := .pyNone,
    amount := .pyNone, volume_ratio := .pyNone }

/-- A row dated 2024-01-02 closing at 11. -/
def c2RowC : Row :=
  { date := some "2024-01-02", close := .finite 11, high := .finite 11,
    low := .finite 11, pct_chg := .pyNone, volume := .pyNone,
    amount := .pyNone, volume_ratio := .pyNone }

/-- A sealed limit-up record with volume ratio 2.5. -/
def c4Latest : DailyLimitRecord :=
  { date := "2024-01-05", close := .fin 11, high := .fin 11, low := .fin 10,
    prev_close := .fin 10, pct_chg := some (.fin 10), volume := some (.fin 1000),
    amount := some (.fin 10000), volume_ratio := some (.fin (5/2)),
    limit_up_price := .fin 11, limit_down_price := .fin 9,
    is_limit_up := true, is_limit_down := false, touched_limit_up := true,
    touched_limit_down := false, broken_limit_up := false,
    broken_limit_down := false, status := "涨停封板" }

/-- A sealed limit-up record with volume ratio 0.7, the day before `c4Latest`. -/
def c4Prev : DailyLimitRecord :=
  { date := "2024-01-04", close := .fin 10, high := .fin 10, low := .fin 9,
    prev_close := .fin (100/11), pct_chg := some (.fin 10), volume := some (.fin 800),
    amount := some (.fin 8000), volume_ratio := some (.fin (7/10)),
    limit_up_price := .fin 10, limit_down_price := .fin (82/10),
    is_limit_up := true, is_limit_down := false, touched_limit_up := true,
    touched_limit_down := false, broken_limit_up := false,
    broken_limit_down := false, status := "涨停封板" }

/-! Helper lemmas. -/

theorem PyF.ble_trans {a b c : PyF} (hab : PyF.ble a b = true) (hbc : PyF.ble b c = true) :
    PyF.ble a c = true := by
  cases a <;> cases b <;> cases c <;> simp_all [PyF.ble]
  exact le_trans hab hbc

theorem charListLe_total : ∀ a b : List Char, charListLe a b = true ∨ charListLe b a = true
  | [], _ => Or.inl rfl
  | _ :: _, [] => Or.inr rfl
  | a :: as, b :: bs => by
    rcases Nat.lt_trichotomy a.toNat b.toNat with h | h | h
    · exact Or.inl (by simp [charListLe, h])
    · rcases charListLe_total as bs with ht | ht
      · exact Or.inl (by simp [charListLe, h, ht])
      · exact Or.inr (by simp [charListLe, h.symm, ht])
    · exact Or.inr (by simp [charListLe, h])

theorem charListLe_trans : ∀ {a b c : List Char},
    charListLe a b = true → charListLe b c = true → charListLe a c = true
  | [], _, _, _, _ => rfl
  | _ :: _, [], _, hab, _ => by simp [charListLe] at hab
  | _ :: _, _ :: _, [], _, hbc => by simp [charListLe] at hbc
  | a :: as, b :: bs, c :: cs, hab, hbc => by
    simp only [charListLe] at hab hbc ⊢
    rcases Nat.lt_trichotomy a.toNat c.toNat with h | h | h
    · simp [h]
    · have htail : charListLe as bs = true ∧ charListLe bs cs = true := by
        constructor <;> [skip; skip] <;> split_ifs at hab hbc <;> simp_all <;> omega
      simp only [h, Nat.lt_irrefl, if_neg (Nat.lt_irrefl _)]
      have : ¬ c.toNat < c.toNat := Nat.lt_irrefl _
      split_ifs <;> first
        | rfl
        | (exact charListLe_trans htail.1 htail.2)
        | omega
    · exfalso
      split_ifs at hab hbc <;> simp_all <;> omega

theorem charListLe_antisymm : ∀ {a b : List Char},
    charListLe a b = true → charListLe b a = true → a = b
  | [], [], _, _ => rfl
  | [], _ :: _, _, hba => by simp [charListLe] at hba
  | _ :: _, [], hab, _ => by simp [charListLe] at hab
  | a :: as, b :: bs, hab, hba => by
    simp only [charListLe] at hab hba
    have hne : a.toNat = b.toNat := by split_ifs at hab hba <;> simp_all <;> omega
    have ha : a = b := Char.eq_of_val_eq (UInt32.toNat.inj hne)
    have htail : as = bs := by
      apply charListLe_antisymm <;> split_ifs at hab hba <;> simp_all <;> omega
    rw [ha, htail]

theorem mem_iteB {c : Bool} {x : String} {l₁ l₂ : List String} :
    (x ∈ if c then l₁ else l₂) ↔ (c = true ∧ x ∈ l₁) ∨ (c = false ∧ x ∈ l₂) := by
  cases c <;> simp

theorem streak_foldl_invariant : ∀ (l : List DailyLimitRecord) (s : ℤ × ℤ × ℤ × ℤ),
    0 ≤ s.2.2.1 → s.2.2.1 ≤ s.1 → 0 ≤ s.2.2.2 → s.2.2.2 ≤ s.2.1 →
    (0 ≤ (l.foldl streakStep s).2.2.1 ∧ (l.foldl streakStep s).2.2.1 ≤ (l.foldl streakStep s).1)
      ∧ (0 ≤ (l.foldl streakStep s).2.2.2 ∧ (l.foldl streakStep s).2.2.2 ≤ (l.foldl streakStep s).2.1)
  | [], s, h1, h2, h3, h4 => ⟨⟨h1, h2⟩, h3, h4⟩
  | r :: t, s, h1, h2, h3, h4 => by
    rw [List.foldl_cons]
    refine streak_foldl_invariant t (streakStep s r) ?_ ?_ ?_ ?_ <;>
      simp only [streakStep] <;>
      rcases r.is_limit_up <;> rcases r.is_limit_down <;> simp <;> omega

theorem takeWhile_up_le_cur (l : List DailyLimitRecord) : ∀ (s : ℤ × ℤ × ℤ × ℤ), 0 ≤ s.2.2.1 →
    ((l.reverse.takeWhile (·.is_limit_up)).length : ℤ) ≤ (l.foldl streakStep s).2.2.1 := by
  induction l using List.reverseRecOn with
  | nil => intro s h; simpa using h
  | append_singleton t a ih =>
    intro s h
    rw [List.foldl_append, List.reverse_append]
    rcases ha : a.is_limit_up
    · simp [List.takeWhile, ha, streakStep]
    · have hih := ih s h
      simp [List.takeWhile, ha, streakStep]
      push_cast
      omega

theorem takeWhile_down_le_cur (l : List DailyLimitRecord) : ∀ (s : ℤ × ℤ × ℤ × ℤ), 0 ≤ s.2.2.2 →
    ((l.reverse.takeWhile (·.is_limit_down)).length : ℤ) ≤ (l.foldl streakStep s).2.2.2 := by
  induction l using List.reverseRecOn with
  | nil => intro s h; simpa using h
  | append_singleton t a ih =>
    intro s h
    rw [List.foldl_append, List.reverse_append]
    rcases ha : a.is_limit_down
    · simp [List.takeWhile, ha, streakStep]
    · have hih := ih s h
      simp [List.takeWhile, ha, streakStep]
      push_cast
      omega

theorem clampScore_bounds (n : ℤ) : 0 ≤ clampScore n ∧ clampScore n ≤ 100 := by
  unfold clampScore; omega

theorem riskLevel_spec (n : ℤ) :
    ((riskLevel n = "高") ↔ 75 ≤ n) ∧ ((riskLevel n = "中") ↔ 60 ≤ n ∧ n < 75)
      ∧ ((riskLevel n = "低") ↔ n < 60) := by
  unfold riskLevel
  by_cases h75 : (75:ℤ) ≤ n <;> by_cases h60 : (60:ℤ) ≤ n <;>
    simp [h75, h60] <;> omega

/-! Claim theorems. -/

/-- C3 counterexample: the string "inf" does not represent a finite number,
yet the tolerant conversion returns positive infinity instead of the supplied
default (`None`), because only NaN — not infinity — is filtered. -/
theorem claim_C3_counterexample :
    safeFloat (NumLike.infStr true) none ≠ none
      ∧ finiteValue (NumLike.infStr true) = none := by
  exact ⟨by decide, rfl⟩

/-- C3 (amended): for every input value and default, the tolerant conversion
is total (never raises) and returns the represented finite number when there
is one, passes a represented infinity through unchanged, and returns the
supplied default in every other case (missing, blank, unparseable, wrong
type, NaN). -/
theorem claim_C3 (v : NumLike) (d : Option PyF) :
    safeFloat v d = tolerantExpected v d := by
  cases v <;> rfl

/-- C5: the rule detector maps 688/689 prefixes to the STAR Market with ±20%,
300/301 prefixes to ChiNext with ±20%, anything else to the Main Board with
±10%, and — applied last, independently of the board — overrides both
percentages to ±5% and sets the ST flag exactly when the display name
contains "ST" case-insensitively; it is total and echoes its inputs. -/
theorem claim_C5 (code name : String) :
    (detectLimitRule code name).board =
      (if startsWithL code "688" || startsWithL code "689" then "科创板"
       else if startsWithL code "300" || startsWithL code "301" then "创业板"
       else "主板")
    ∧ (detectLimitRule code name).is_st = containsSub "ST".data (upperStr name).data
    ∧ (detectLimitRule code name).limit_up_pct =
      (if containsSub "ST".data (upperStr name).data then (1/20 : ℚ)
       else if startsWithL code "688" || startsWithL code "689" then 1/5
       else if startsWithL code "300" || startsWithL code "301" then 1/5
       else 1/10)
    ∧ (detectLimitRule code name).limit_down_pct = (detectLimitRule code name).limit_up_pct
    ∧ (detectLimitRule code name).code = code
    ∧ (detectLimitRule code name).name = name := by
  unfold detectLimitRule
  rcases h1 : startsWithL code "688" || startsWithL code "689" <;>
    rcases h2 : startsWithL code "300" || startsWithL code "301" <;>
    rcases h3 : containsSub "ST".data (upperStr name).data <;>
      simp [h1, h2, h3]

/-- C7: for every record the classifier builds, broken-up equals
touched-up and not closed-up, and broken-down equals touched-down and not
closed-down (so in particular broken-up implies touched-up and not closed-up). -/
theorem claim_C7 (row : Row) (prev_close : PyF) (rule : LimitRule)
    (price_tolerance pct_tolerance : ℚ) :
    (buildDailyRecord row prev_close rule price_tolerance pct_tolerance).broken_limit_up
      = ((buildDailyRecord row prev_close rule price_tolerance pct_tolerance).touched_limit_up
        && !(buildDailyRecord row prev_close rule price_tolerance pct_tolerance).is_limit_up)
    ∧ (buildDailyRecord row prev_close rule price_tolerance pct_tolerance).broken_limit_down
      = ((buildDailyRecord row prev_close rule price_tolerance pct_tolerance).touched_limit_down
        && !(buildDailyRecord row prev_close rule price_tolerance pct_tolerance).is_limit_down) :=
  ⟨rfl, rfl⟩

/-- C8: on empty input the orchestrator returns (with no error) the all-zero
streak with absent last-event dates and empty date lists, and the degenerate
signal with score 0, level low, direction none and the single
insufficient-data reason. -/
theorem claim_C8 (code name : String) (turnover_rate : Option PyF)
    (price_tolerance pct_tolerance : ℚ) (recent_days : ℕ) :
    (analyzeLimits code name [] turnover_rate price_tolerance pct_tolerance recent_days).streak
      = { up_days := 0, down_days := 0, max_up_streak := 0, max_down_streak := 0,
          limit_up_days := 0, limit_down_days := 0, break_up_count := 0,
          break_down_count := 0, last_limit_up_date := none,
          last_limit_down_date := none, limit_up_dates := [], limit_down_dates := [] }
    ∧ (analyzeLimits code name [] turnover_rate price_tolerance pct_tolerance
        recent_days).open_board_signal
      = { score := 0, level := "低", direction := "none", reasons := ["数据不足"],
          volume_ratio := none, turnover_rate := none, volume_turning_point := false } :=
  ⟨rfl, rfl⟩

/-- C9: for every latest record, previous record and turnover input, the
estimator's score is an integer in [0, 100], and the level is high exactly
when the final score is at least 75, medium exactly when it lies in [60, 75),
and low exactly otherwise. -/
theorem estimate_some_score_level (l : DailyLimitRecord)
    (previous : Option DailyLimitRecord) (t : Option PyF) :
    ∃ n : ℤ, (estimateOpenBoardSignal (some l) previous t).score = clampScore n
      ∧ (estimateOpenBoardSignal (some l) previous t).level = riskLevel (clampScore n) :=
  ⟨_, rfl, rfl⟩

theorem claim_C9 (latest previous : Option DailyLimitRecord) (turnover_rate : Option PyF) :
    (0 ≤ (estimateOpenBoardSignal latest previous turnover_rate).score
      ∧ (estimateOpenBoardSignal latest previous turnover_rate).score ≤ 100)
    ∧ ((estimateOpenBoardSignal latest previous turnover_rate).level = "高"
      ↔ 75 ≤ (estimateOpenBoardSignal latest previous turnover_rate).score)
    ∧ ((estimateOpenBoardSignal latest previous turnover_rate).level = "中"
      ↔ (60 ≤ (estimateOpenBoardSignal latest previous turnover_rate).score
        ∧ (estimateOpenBoardSignal latest previous turnover_rate).score < 75))
    ∧ ((estimateOpenBoardSignal latest previous turnover_rate).level = "低"
      ↔ (estimateOpenBoardSignal latest previous turnover_rate).score < 60) := by
  cases latest with
  | none =>
    have hnone : estimateOpenBoardSignal none previous turnover_rate
        = { score := 0, level := "低", direction := "none", reasons := ["数据不足"] } := rfl
    rw [hnone]
    decide
  | some l =>
    obtain ⟨n, hs, hl⟩ := estimate_some_score_level l previous turnover_rate
    rw [hs, hl]
    exact ⟨clampScore_bounds n, (riskLevel_spec _).1, (riskLevel_spec _).2.1,
      (riskLevel_spec _).2.2⟩

set_option maxHeartbeats 1600000 in
/-- C4: for two consecutive sealed limit-up records with volume ratios 0.7
then 2.5 and an external turnover rate of 18, the estimator scores at least
50+10+15+15 = 90 (and at most 100 after clamping), reports level high, and
flags the volume turning point. -/
theorem claim_C4 (latest previous : DailyLimitRecord)
    (h1 : latest.is_limit_up = true) (h2 : previous.is_limit_up = true)
    (h3 : latest.volume_ratio = some (.fin (5/2)))
    (h4 : previous.volume_ratio = some (.fin (7/10))) :
    90 ≤ (estimateOpenBoardSignal (some latest) (some previous) (some (.fin 18))).score
    ∧ (estimateOpenBoardSignal (some latest) (some previous) (some (.fin 18))).score ≤ 100
    ∧ (estimateOpenBoardSignal (some latest) (some previous) (some (.fin 18))).level = "高"
    ∧ (estimateOpenBoardSignal (some latest) (some previous)
        (some (.fin 18))).volume_turning_point = true := by
  have e1 : PyF.ble (.fin (7/10)) (.fin (4/5)) = true := by norm_num [PyF.ble]
  have e2 : PyF.ble (.fin (3/2)) (.fin (5/2)) = true := by norm_num [PyF.ble]
  have e3 : PyF.ble (.fin 2) (.fin (5/2)) = true := by norm_num [PyF.ble]
  have e4 : PyF.ble (.fin 15) (.fin 18) = true := by norm_num [PyF.ble]
  have e5 : PyF.ble (.fin 10) (.fin 18) = true := by norm_num [PyF.ble]
  rcases hb : latest.broken_limit_up <;> rcases hd : latest.is_limit_down <;>
    simp only [estimateOpenBoardSignal, h1, h3, h4, hb, hd, e1, e2, e3, e4, e5,
      Bool.not_true, Bool.and_false, Bool.and_self, Bool.and_true, Bool.true_and,
      if_true, if_false, Bool.false_eq_true, ite_false, ite_true] <;>
    decide

/-- C6: for every (possibly empty) sequence of classified records, every
counter of the resulting streak is a non-negative integer, the current up
streak is at most the maximal up streak, and the current down streak is at
most the maximal down streak. -/
theorem claim_C6 (records : List DailyLimitRecord) :
    (0 ≤ (computeStreak records).up_days ∧ 0 ≤ (computeStreak records).down_days
      ∧ 0 ≤ (computeStreak records).max_up_streak ∧ 0 ≤ (computeStreak records).max_down_streak
      ∧ 0 ≤ (computeStreak records).limit_up_days ∧ 0 ≤ (computeStreak records).limit_down_days
      ∧ 0 ≤ (computeStreak records).break_up_count ∧ 0 ≤ (computeStreak records).break_down_count)
    ∧ (computeStreak records).up_days ≤ (computeStreak records).max_up_streak
    ∧ (computeStreak records).down_days ≤ (computeStreak records).max_down_streak := by
  cases records with
  | nil => decide
  | cons r t =>
    have hinv := streak_foldl_invariant (r :: t) (0, 0, 0, 0)
      (by norm_num) (by norm_num) (by norm_num) (by norm_num)
    have hup := takeWhile_up_le_cur (r :: t) (0, 0, 0, 0) (by norm_num)
    have hdn := takeWhile_down_le_cur (r :: t) (0, 0, 0, 0) (by norm_num)
    simp only [computeStreak, backCount]
    refine ⟨⟨?_, ?_, ?_, ?_, ?_, ?_, ?_, ?_⟩, ?_, ?_⟩ <;> omega

theorem ble_and_false {A B C : PyF} (h : PyF.ble A B = false) :
    (PyF.ble A C && PyF.ble C B) = false := by
  rcases h1 : PyF.ble A C <;> rcases h2 : PyF.ble C B <;> simp
  exact absurd (PyF.ble_trans h1 h2) (by simp [h])

/-- C1 (amended): a classified record is never simultaneously closed-at-
limit-up and closed-at-limit-down, provided the row carries no reported
percentage change (so only the price-based conditions fire) and the two
computed limit prices are separated by more than twice the price tolerance;
with a reported percentage change, or with thresholds within the tolerance
band, both flags can hold together even for distinct limit prices. -/
theorem claim_C1 (row : Row) (prev_close : PyF) (rule : LimitRule)
    (price_tolerance pct_tolerance : ℚ)
    (hpct : safeFloat row.pct_chg none = none)
    (hsep : PyF.ble
      ((buildDailyRecord row prev_close rule price_tolerance
        pct_tolerance).limit_up_price.subC price_tolerance)
      ((buildDailyRecord row prev_close rule price_tolerance
        pct_tolerance).limit_down_price.addC price_tolerance) = false) :
    ((buildDailyRecord row prev_close rule price_tolerance pct_tolerance).is_limit_up
      && (buildDailyRecord row prev_close rule price_tolerance
        pct_tolerance).is_limit_down) = false := by
  simp only [buildDailyRecord] at hsep ⊢
  simp only [hpct, Bool.or_false]
  exact ble_and_false hsep

theorem rowLe_isTotal : ∀ a b : Row, rowLe a b ∨ rowLe b a := fun a b =>
  charListLe_total (rowKey a) (rowKey b)

theorem rowLe_isTrans : ∀ a b c : Row, rowLe a b → rowLe b c → rowLe a c :=
  fun _ _ _ hab hbc => charListLe_trans hab hbc

/-- Any two stable-sort outputs agree when the inputs are permutations of one
another with pairwise distinct date keys. -/
theorem sortDaily_eq_of_perm_nodup {l₁ l₂ : List Row} (hp : l₁.Perm l₂)
    (hnd : (l₂.map rowKey).Nodup) :
    sortDailyRecords l₁ = sortDailyRecords l₂ := by
  haveI : IsTotal Row rowLe := ⟨rowLe_isTotal⟩
  haveI : IsTrans Row rowLe := ⟨rowLe_isTrans⟩
  have hs₁ : List.Sorted rowLe (sortDailyRecords l₁) := List.sorted_insertionSort rowLe l₁
  have hs₂ : List.Sorted rowLe (sortDailyRecords l₂) := List.sorted_insertionSort rowLe l₂
  have hperm : (sortDailyRecords l₁).Perm (sortDailyRecords l₂) :=
    (List.perm_insertionSort rowLe l₁).trans (hp.trans (List.perm_insertionSort rowLe l₂).symm)
  have hnd₁ : ((sortDailyRecords l₁).map rowKey).Nodup :=
    ((((List.perm_insertionSort rowLe l₁).trans hp).map rowKey).nodup_iff).2 hnd
  have hnd₂ : ((sortDailyRecords l₂).map rowKey).Nodup :=
    (((List.perm_insertionSort rowLe l₂).map rowKey).nodup_iff).2 hnd
  have hst₁ : List.Pairwise (fun a b => rowLe a b ∧ rowKey a ≠ rowKey b) (sortDailyRecords l₁) :=
    List.Pairwise.and hs₁ (List.pairwise_map.mp hnd₁)
  have hst₂ : List.Pairwise (fun a b => rowLe a b ∧ rowKey a ≠ rowKey b) (sortDailyRecords l₂) :=
    List.Pairwise.and hs₂ (List.pairwise_map.mp hnd₂)
  haveI : IsAntisymm Row (fun a b => rowLe a b ∧ rowKey a ≠ rowKey b) :=
    ⟨fun _ _ ha hb => absurd (charListLe_antisymm ha.1 hb.1) ha.2⟩
  exact List.eq_of_perm_of_sorted hperm hst₁ hst₂

/-- C2 (amended): when the rows' formatted date keys are pairwise distinct,
running the orchestrator on any permutation of the raw rows yields exactly
the result of running it on the pre-sorted list; with duplicate date keys the
stable sort preserves the shuffled relative order and the results can differ. -/
theorem claim_C2 (code name : String) (shuffled rows : List Row)
    (turnover_rate : Option PyF) (price_tolerance pct_tolerance : ℚ) (recent_days : ℕ)
    (hperm : shuffled.Perm rows) (hnd : (rows.map rowKey).Nodup) :
    analyzeLimits code name shuffled turnover_rate price_tolerance pct_tolerance recent_days
      = analyzeLimits code name (sortDailyRecords rows) turnover_rate price_tolerance
        pct_tolerance recent_days := by
  have h1 : sortDailyRecords shuffled = sortDailyRecords rows :=
    sortDaily_eq_of_perm_nodup hperm hnd
  have h2 : sortDailyRecords (sortDailyRecords rows) = sortDailyRecords rows :=
    sortDaily_eq_of_perm_nodup (List.perm_insertionSort rowLe rows) hnd
  simp only [analyzeLimits]
  rw [h1, h2]

set_option maxHeartbeats 1600000 in
theorem reopen_reason_not_mem (l : DailyLimitRecord) (previous : Option DailyLimitRecord)
    (t : Option PyF) (hbl : l.broken_limit_up = (l.touched_limit_up && !l.is_limit_up)) :
    "触及涨停后回落，开板已发生" ∉ (estimateOpenBoardSignal (some l) previous t).reasons := by
  intro hmem
  rcases hvr : l.volume_ratio with _ | vr <;> rcases ht : t with _ | tr <;>
    simp only [estimateOpenBoardSignal, hvr, ht, List.mem_append, mem_iteB, List.mem_singleton,
      List.not_mem_nil, or_false, false_or] at hmem <;>
    simp +decide [hbl] at hmem <;>
    exact absurd (hmem.1 hmem.2.1) (by simp [hmem.2.2])

/-- C10: for every latest record produced by the classifier, the estimator's
secondary branch (touched-up and not closed-up, which would floor the score
at 70 and append its own reason) is unreachable: its reason string never
appears in the output, because such a record is already broken-up and the
preceding broken-board branch fires instead. -/
theorem claim_C10 (row : Row) (prev_close : PyF) (rule : LimitRule)
    (price_tolerance pct_tolerance : ℚ) (previous : Option DailyLimitRecord)
    (turnover_rate : Option PyF) :
    "触及涨停后回落，开板已发生" ∉
      (estimateOpenBoardSignal
        (some (buildDailyRecord row prev_close rule price_tolerance pct_tolerance))
        previous turnover_rate).reasons :=
  reopen_reason_not_mem _ previous turnover_rate rfl

section

attribute [local semireducible] Rat.mul Rat.inv Rat.add Rat.sub

/-- C1 counterexample: with previous close 100 under the main-board 10% rule
the limit prices are the distinct 110 and 90, yet the row closing at 89 with
a reported percentage change of +10 is classified closed-at-limit-up (via the
percentage branch) and closed-at-limit-down (via the price branch) at once. -/
theorem claim_C1_counterexample :
    (buildDailyRecord c1Row (.fin 100) c1Rule (1/100) (1/5)).limit_up_price
      ≠ (buildDailyRecord c1Row (.fin 100) c1Rule (1/100) (1/5)).limit_down_price
    ∧ (buildDailyRecord c1Row (.fin 100) c1Rule (1/100) (1/5)).is_limit_up = true
    ∧ (buildDailyRecord c1Row (.fin 100) c1Rule (1/100) (1/5)).is_limit_down = true := by
  decide

/-- C1 witness: a concrete row with no reported percentage change and
well-separated thresholds is not flagged both ways. -/
theorem claim_C1_witness :
    ((buildDailyRecord c1RowW (.fin 100) c1Rule (1/100) (1/5)).is_limit_up
      && (buildDailyRecord c1RowW (.fin 100) c1Rule (1/100) (1/5)).is_limit_down) = false :=
  claim_C1 c1RowW (.fin 100) c1Rule (1/100) (1/5) rfl (by decide)

/-- C2 counterexample: two rows share the date key 2024-01-01; the shuffled
order is a permutation of the pre-sorted order, yet the analysis results
differ, because the stable sort preserves the shuffled relative order. -/
theorem claim_C2_counterexample :
    [c2RowB, c2RowA].Perm [c2RowA, c2RowB]
    ∧ analyzeLimits "000001" "平安银行" [c2RowB, c2RowA] none (1/100) (1/5) 5
      ≠ analyzeLimits "000001" "平安银行" (sortDailyRecords [c2RowA, c2RowB]) none
        (1/100) (1/5) 5 :=
  ⟨List.Perm.swap c2RowA c2RowB [], by decide⟩

/-- C2 witness: with the two distinct date keys 2024-01-01 and 2024-01-02,
the shuffled run agrees with the pre-sorted run. -/
theorem claim_C2_witness :
    analyzeLimits "000001" "平安银行" [c2RowC, c2RowA] none (1/100) (1/5) 5
      = analyzeLimits "000001" "平安银行" (sortDailyRecords [c2RowA, c2RowC]) none
        (1/100) (1/5) 5 :=
  claim_C2 "000001" "平安银行" [c2RowC, c2RowA] [c2RowA, c2RowC] none (1/100) (1/5) 5
    (List.Perm.swap c2RowA c2RowC []) (by decide)

/-- C4 witness: the concrete pair of sealed limit-up records with volume
ratios 0.7 then 2.5 and turnover 18 scores at least 90, at most 100, level
high, with the volume turning point flagged. -/
theorem claim_C4_witness :
    90 ≤ (estimateOpenBoardSignal (some c4Latest) (some c4Prev) (some (.fin 18))).score
    ∧ (estimateOpenBoardSignal (some c4Latest) (some c4Prev) (some (.fin 18))).score ≤ 100
    ∧ (estimateOpenBoardSignal (some c4Latest) (some c4Prev) (some (.fin 18))).level = "高"
    ∧ (estimateOpenBoardSignal (some c4Latest) (some c4Prev)
        (some (.fin 18))).volume_turning_point = true :=
  claim_C4 c4Latest c4Prev rfl rfl rfl rfl

end
